import Mathlib

/-!
Shallow embedding of the gatepay-sdk enhanced client.

The core under verification is the `Gatepay` façade class of the SDK
file `client.ts`: its constructor, the composite `createLink` orchestration
(steps 1-5 with the surrounding try/catch), `updateApiToken`,
`updateBasePath` and `getConfiguration`.  The generated runtime
(`Configuration`) and the generated sub-clients / request models are not
part of the core sources; they are modelled from the spec as plain data
holders, since the façade only constructs and stores them.

Remote behaviour is injected: `createLink` is parameterised by a
`LinksStub`, a record of pure functions standing for the remote responses
of the five LinksApi operations the orchestration uses.  The embedding
returns, besides the `Except` result, the ordered list of remote calls
that were issued, so that call-count and call-order claims can be stated.
-/

namespace GatepaySDK

/-- Modelled from the spec: the generated runtime `Configuration` holder
(`runtime.ts`, absent from the core sources) — an immutable snapshot of
base address and credential; no validation beyond presence. -/
structure Configuration where
  basePath : String
  accessToken : String
deriving DecidableEq

/-- Modelled from the spec: generated account sub-client; wraps the
Configuration it was constructed with. -/
structure AccountApi where
  configuration : Configuration
deriving DecidableEq

/-- Modelled from the spec: generated links sub-client; wraps the
Configuration it was constructed with. -/
structure LinksApi where
  configuration : Configuration
deriving DecidableEq

/-- Modelled from the spec: generated networks sub-client; wraps the
Configuration it was constructed with. -/
structure NetworksApi where
  configuration : Configuration
deriving DecidableEq

/-- From `client.ts`, `GatepayClientOptions`: `apiToken: string`,
`basePath?: string` (an absent optional field is `none`). -/
structure GatepayClientOptions where
  apiToken : String
  basePath : Option String
deriving DecidableEq

/-- The façade class `Gatepay` of `client.ts`: one Configuration plus the
three sub-client fields. -/
structure Gatepay where
  configuration : Configuration
  account : AccountApi
  links : LinksApi
  networks : NetworksApi
deriving DecidableEq

/-- JavaScript `value || dflt` on a possibly-undefined string: an absent
or empty string is falsy and selects the default. -/
def jsOrDefault (value : Option String) (dflt : String) : String :=
  match value with
  | none => dflt
  | some s => if s = "" then dflt else s

/-- The `Gatepay` constructor (`client.ts`): builds the Configuration from
`options.basePath || "https://api.gatepay.cloud"` and `options.apiToken`,
then constructs the three sub-clients against it. -/
def Gatepay.new (options : GatepayClientOptions) : Gatepay :=
  let configuration : Configuration :=
    { basePath := jsOrDefault options.basePath "https://api.gatepay.cloud"
      accessToken := options.apiToken }
  { configuration := configuration
    account := { configuration := configuration }
    links := { configuration := configuration }
    networks := { configuration := configuration } }

/-- From `client.ts`, `Gatepay.updateApiToken`: a brand-new Configuration with
the current basePath and the new token; all three sub-client fields are
rebound to fresh instances built on it.  In the functional embedding the
method returns the updated façade value; the pre-update value is the old
reference a caller may have captured. -/
def Gatepay.updateApiToken (g : Gatepay) (apiToken : String) : Gatepay :=
  let configuration : Configuration :=
    { basePath := g.configuration.basePath
      accessToken := apiToken }
  { configuration := configuration
    account := { configuration := configuration }
    links := { configuration := configuration }
    networks := { configuration := configuration } }

/-- From `client.ts`, `Gatepay.updateBasePath`: a brand-new Configuration with
the new basePath (stored verbatim, no default fallback here) and the
current token; all three sub-client fields rebound to fresh instances. -/
def Gatepay.updateBasePath (g : Gatepay) (basePath : String) : Gatepay :=
  let configuration : Configuration :=
    { basePath := basePath
      accessToken := g.configuration.accessToken }
  { configuration := configuration
    account := { configuration := configuration }
    links := { configuration := configuration }
    networks := { configuration := configuration } }

/-- From `client.ts`, `Gatepay.getConfiguration`: returns the current
Configuration. -/
def Gatepay.getConfiguration (g : Gatepay) : Configuration :=
  g.configuration

/-- The two configuration-mutating façade operations, used to quantify
over every reachable façade state. -/
inductive FacadeOp where
  | updToken (t : String)
  | updBase (b : String)
deriving DecidableEq

/-- The string argument carried by a façade mutation. -/
def FacadeOp.arg : FacadeOp → String
  | .updToken t => t
  | .updBase b => b

/-- Apply one mutation to the façade. -/
def applyOp (g : Gatepay) : FacadeOp → Gatepay
  | .updToken t => g.updateApiToken t
  | .updBase b => g.updateBasePath b

/-- Apply a sequence of mutations to the façade, oldest first. -/
def applyOps (g : Gatepay) (ops : List FacadeOp) : Gatepay :=
  ops.foldl applyOp g

/-- Modelled from the spec: the generated `PostLinksRequest` model (the
`models` directory is absent from the core sources) — the plain link
fields: required name, optional alias/description/status/type. -/
structure PostLinksRequest where
  name : String
  «alias» : Option String := none
  description : Option String := none
  status : Option String := none
  type : Option String := none
deriving DecidableEq

/-- Modelled from the spec: one toll payment requirement. -/
structure TollPaymentRequirement where
  assetNetwork : String
  assetAddress : String
  amount : String
  destinationAddress : String
deriving DecidableEq

/-- Modelled from the spec: the generated toll-creation request model. -/
structure PostLinksByLinkUuidTollsRequest where
  tollPaymentRequirements : List TollPaymentRequirement
deriving DecidableEq

/-- Modelled from the spec: the payload of a resource, url-based or
html-based depending on the resource type. -/
structure ResourceData where
  url : Option String := none
  html : Option String := none
  description : Option String := none
deriving DecidableEq

/-- Modelled from the spec: the generated resource-creation request model,
discriminated by `type`. -/
structure PostLinksByLinkUuidResourcesRequest where
  type : String
  data : ResourceData
deriving DecidableEq

/-- Modelled from the spec: the payload of a callback action. -/
structure ActionData where
  url : String
  method : String
deriving DecidableEq

/-- Modelled from the spec: the generated action-creation request model. -/
structure PostLinksByLinkUuidActionsRequest where
  type : String
  trigger : String
  data : ActionData
deriving DecidableEq

/-- From `client.ts`, `CreateLinkOptions`: extends `PostLinksRequest` with
optional toll, resource and actions. -/
structure CreateLinkOptions extends PostLinksRequest where
  toll : Option PostLinksByLinkUuidTollsRequest := none
  resource : Option PostLinksByLinkUuidResourcesRequest := none
  actions : Option (List PostLinksByLinkUuidActionsRequest) := none
deriving DecidableEq

/-- Modelled from the spec: the generated `PostLinks201Response` / Link
model — server-assigned uuid and url plus the echoed plain fields, each
possibly absent on the wire. -/
structure PostLinks201Response where
  uuid : Option String := none
  name : Option String := none
  «alias» : Option String := none
  url : Option String := none
deriving DecidableEq

/-- A JavaScript thrown value: either an `Error` instance with a message
(and, for transport errors, the HTTP status it carries), or some
non-`Error` value. -/
inductive ThrownValue where
  | errorObj (message : String) (status : Option Nat)
  | nonError (description : String)
deriving DecidableEq

/-- The message the catch block of `createLink` extracts from a caught
value: `error instanceof Error ? error.message : "Unknown error"`. -/
def ThrownValue.caughtMessage : ThrownValue → String
  | .errorObj m _ => m
  | .nonError _ => "Unknown error"

/-- The HTTP status carried by a thrown value, if any. -/
def ThrownValue.statusOf : ThrownValue → Option Nat
  | .errorObj _ s => s
  | .nonError _ => none

/-- One remote call issued through `this.links` during `createLink`,
recording the operation and its request payload. -/
inductive ApiCall where
  | postLinks (postLinksRequest : CreateLinkOptions)
  | postLinksByLinkUuidTolls (linkUuid : String)
      (req : PostLinksByLinkUuidTollsRequest)
  | postLinksByLinkUuidResources (linkUuid : String)
      (req : PostLinksByLinkUuidResourcesRequest)
  | postLinksByLinkUuidActions (linkUuid : String)
      (req : PostLinksByLinkUuidActionsRequest)
  | getLinksByUuidOrAlias (uuidOrAlias : String)
deriving DecidableEq

/-- The injected remote behaviour of the five LinksApi operations used by
`createLink`: each is a pure response function (success value or thrown
value). -/
structure LinksStub where
  postLinks : CreateLinkOptions → Except ThrownValue PostLinks201Response
  postLinksByLinkUuidTolls : String → PostLinksByLinkUuidTollsRequest →
    Except ThrownValue Unit
  postLinksByLinkUuidResources : String → PostLinksByLinkUuidResourcesRequest →
    Except ThrownValue Unit
  postLinksByLinkUuidActions : String → PostLinksByLinkUuidActionsRequest →
    Except ThrownValue Unit
  getLinksByUuidOrAlias : String → Except ThrownValue PostLinks201Response

/-- A computation that issues remote calls: the ordered list of calls it
made together with its result or the value it threw. -/
def CallM (α : Type) : Type := List ApiCall × Except ThrownValue α

/-- Return without calling anything. -/
def CallM.pure {α : Type} (a : α) : CallM α := ([], Except.ok a)

/-- Throw without calling anything. -/
def CallM.throw {α : Type} (e : ThrownValue) : CallM α := ([], Except.error e)

/-- Record one remote call together with its outcome. -/
def CallM.call {α : Type} (c : ApiCall) (r : Except ThrownValue α) : CallM α :=
  ([c], r)

/-- Sequencing with fail-fast: a thrown value stops the computation, so
calls after the failure are never issued. -/
def CallM.bind {α β : Type} (x : CallM α) (f : α → CallM β) : CallM β :=
  match x with
  | (tr, Except.error e) => (tr, Except.error e)
  | (tr, Except.ok a) =>
    let y := f a
    (tr ++ y.fst, y.snd)

/-- The step-1 request (`client.ts`): the spread copy of the options with
`toll`, `resource` and `actions` set to undefined; the options
value of the caller itself is left untouched. -/
def strippedOptions (options : CreateLinkOptions) : CreateLinkOptions :=
  { options with toll := none, resource := none, actions := none }

/-- JavaScript truthiness of the optional `uuid` field: `!createdLink.uuid`
holds when the field is absent or the empty string. -/
def truthyUuid : Option String → Option String
  | none => none
  | some s => if s = "" then none else some s

/-- Step 2 (`client.ts`): create the toll if one was supplied. -/
def tollStep (stub : LinksStub) (linkUuid : String) :
    Option PostLinksByLinkUuidTollsRequest → CallM Unit
  | none => CallM.pure ()
  | some t =>
    CallM.call (ApiCall.postLinksByLinkUuidTolls linkUuid t)
      (stub.postLinksByLinkUuidTolls linkUuid t)

/-- Step 3 (`client.ts`): create the resource if one was supplied. -/
def resourceStep (stub : LinksStub) (linkUuid : String) :
    Option PostLinksByLinkUuidResourcesRequest → CallM Unit
  | none => CallM.pure ()
  | some r =>
    CallM.call (ApiCall.postLinksByLinkUuidResources linkUuid r)
      (stub.postLinksByLinkUuidResources linkUuid r)

/-- The step-4 loop (`client.ts`): `for (const action of options.actions)`,
one awaited call per action, in list order, stopping at the first thrown
value. -/
def actionsLoop (stub : LinksStub) (linkUuid : String) :
    List PostLinksByLinkUuidActionsRequest → CallM Unit
  | [] => CallM.pure ()
  | a :: rest =>
    CallM.bind
      (CallM.call (ApiCall.postLinksByLinkUuidActions linkUuid a)
        (stub.postLinksByLinkUuidActions linkUuid a))
      (fun _ => actionsLoop stub linkUuid rest)

/-- Step 4 (`client.ts`): run the loop only under the guard
`options.actions && options.actions.length > 0`. -/
def actionsStep (stub : LinksStub) (linkUuid : String) :
    Option (List PostLinksByLinkUuidActionsRequest) → CallM Unit
  | none => CallM.pure ()
  | some acts =>
    if acts.length > 0 then actionsLoop stub linkUuid acts else CallM.pure ()

/-- The try-block body of `createLink` (`client.ts` steps 1-5): create
the bare link from the stripped options, fail on a falsy uuid, then toll,
resource, actions, and finally the read-back by uuid, which is returned. -/
def createLinkTry (stub : LinksStub) (options : CreateLinkOptions) :
    CallM PostLinks201Response :=
  let postLinksRequest := strippedOptions options
  CallM.bind
    (CallM.call (ApiCall.postLinks postLinksRequest)
      (stub.postLinks postLinksRequest))
    (fun createdLink =>
      match truthyUuid createdLink.uuid with
      | none =>
        CallM.throw
          (ThrownValue.errorObj "Failed to create link: no UUID returned" none)
      | some linkUuid =>
        CallM.bind (tollStep stub linkUuid options.toll) (fun _ =>
          CallM.bind (resourceStep stub linkUuid options.resource) (fun _ =>
            CallM.bind (actionsStep stub linkUuid options.actions) (fun _ =>
              CallM.call (ApiCall.getLinksByUuidOrAlias linkUuid)
                (stub.getLinksByUuidOrAlias linkUuid)))))

/-- The catch block of `createLink` (`client.ts`): every caught value is
replaced by a fresh `Error` whose message prefixes the caught message, and
which carries no HTTP status and no reference to the caught value. -/
def wrapThrown (e : ThrownValue) : ThrownValue :=
  ThrownValue.errorObj ("Failed to create link: " ++ e.caughtMessage) none

/-- From `client.ts`, `Gatepay.createLink`: the try body with every thrown
value wrapped by the catch block.  The stub stands for the remote
behaviour of `this.links`; the returned list is the ordered trace of
remote calls issued. -/
def createLink (stub : LinksStub) (options : CreateLinkOptions) :
    List ApiCall × Except ThrownValue PostLinks201Response :=
  let r := createLinkTry stub options
  (r.fst,
    match r.snd with
    | Except.ok link => Except.ok link
    | Except.error e => Except.error (wrapThrown e))

/-- The sub-trace of action-creation calls: the (uuid, request) pair of
every `postLinksByLinkUuidActions` call, in issue order. -/
def actionEvents : List ApiCall → List (String × PostLinksByLinkUuidActionsRequest)
  | [] => []
  | ApiCall.postLinksByLinkUuidActions u a :: rest => (u, a) :: actionEvents rest
  | _ :: rest => actionEvents rest

/-- Placeholder action request, used only as the irrelevant default of
`List.getD` at indices that are in range. -/
def dummyAction : PostLinksByLinkUuidActionsRequest :=
  { type := "", trigger := "", data := { url := "", method := "" } }

/-- Sequencing after a successful step appends the calls of the continuation. -/
theorem CallM.bind_ok {α β : Type} (tr : List ApiCall) (a : α) (f : α → CallM β) :
    CallM.bind (tr, Except.ok a) f = (tr ++ (f a).fst, (f a).snd) := rfl

/-- Sequencing after a thrown value issues no further calls. -/
theorem CallM.bind_error {α β : Type} (tr : List ApiCall) (e : ThrownValue)
    (f : α → CallM β) :
    CallM.bind (tr, Except.error e) f = (tr, Except.error e) := rfl

/-- C1: for options with only plain link fields (no toll, no resource, no
actions), when the creation call succeeds with a non-empty uuid and the
read-back at that uuid succeeds, `createLink` issues exactly one
`postLinks` call and one `getLinksByUuidOrAlias` call at the created uuid
— zero toll/resource/action calls — and returns the read-back Link; under
the server contract that fetching by uuid returns a Link carrying that
uuid, the uuid of the returned Link equals the uuid returned by creation. -/
theorem c1_plain_link_two_calls (stub : LinksStub) (options : CreateLinkOptions)
    (cl link : PostLinks201Response) (u : String)
    (htoll : options.toll = none)
    (hres : options.resource = none)
    (hact : options.actions = none)
    (h1 : stub.postLinks (strippedOptions options) = Except.ok cl)
    (hu : cl.uuid = some u)
    (hne : u ≠ "")
    (hread : stub.getLinksByUuidOrAlias u = Except.ok link)
    (hfaithful : link.uuid = some u) :
    createLink stub options =
      ([ApiCall.postLinks (strippedOptions options),
        ApiCall.getLinksByUuidOrAlias u],
        Except.ok link) ∧
      link.uuid = some u := by
  refine ⟨?_, hfaithful⟩
  simp [createLink, createLinkTry, CallM.call, CallM.throw, CallM.bind_ok,
    CallM.bind_error, CallM.pure, tollStep, resourceStep, actionsStep,
    truthyUuid, h1, hu, hne, htoll, hres, hact, hread]

/-- C2: when the creation call succeeds but returns a falsy (absent or
empty) uuid, `createLink` fails with the wrapped "no UUID returned" error
and issues no further remote calls: the trace is the single `postLinks`
call. -/
theorem c2_missing_uuid_stops (stub : LinksStub) (options : CreateLinkOptions)
    (cl : PostLinks201Response)
    (h1 : stub.postLinks (strippedOptions options) = Except.ok cl)
    (hu : truthyUuid cl.uuid = none) :
    createLink stub options =
      ([ApiCall.postLinks (strippedOptions options)],
        Except.error (ThrownValue.errorObj
          "Failed to create link: Failed to create link: no UUID returned"
          none)) := by
  simp [createLink, createLinkTry, CallM.call, CallM.throw, CallM.bind_ok,
    CallM.bind_error, h1, hu, wrapThrown, ThrownValue.caughtMessage]

/-- C3: when a toll is supplied and the toll-creation call throws,
`createLink` fails with the wrapped error and the trace is exactly the
completed `postLinks` call followed by the toll call: no resource call, no
action call, no read-back, and no compensating call of any kind, so the
Link created in step 1 is left on the server. -/
theorem c3_toll_failure_no_rollback (stub : LinksStub)
    (options : CreateLinkOptions) (cl : PostLinks201Response) (u : String)
    (t : PostLinksByLinkUuidTollsRequest) (e : ThrownValue)
    (htoll : options.toll = some t)
    (h1 : stub.postLinks (strippedOptions options) = Except.ok cl)
    (hu : truthyUuid cl.uuid = some u)
    (htf : stub.postLinksByLinkUuidTolls u t = Except.error e) :
    createLink stub options =
      ([ApiCall.postLinks (strippedOptions options),
        ApiCall.postLinksByLinkUuidTolls u t],
        Except.error (wrapThrown e)) := by
  simp [createLink, createLinkTry, CallM.call, CallM.throw, CallM.bind_ok,
    CallM.bind_error, tollStep, h1, hu, htoll, htf]

/-- A concrete all-success remote behaviour: creation yields uuid
`"uuid-1"`, the read-back echoes the queried uuid. -/
def okStub : LinksStub :=
  { postLinks := fun _ =>
      Except.ok { uuid := some "uuid-1", name := some "My Link" }
    postLinksByLinkUuidTolls := fun _ _ => Except.ok ()
    postLinksByLinkUuidResources := fun _ _ => Except.ok ()
    postLinksByLinkUuidActions := fun _ _ => Except.ok ()
    getLinksByUuidOrAlias := fun u =>
      Except.ok { uuid := some u, name := some "My Link"
                  url := some "https://gatepay.cloud/l/uuid-1" } }

/-- Like `okStub`, but the creation response carries no uuid. -/
def noUuidStub : LinksStub :=
  { okStub with postLinks := fun _ => Except.ok {} }

/-- Like `okStub`, but toll creation fails with an HTTP 500 error. -/
def tollFailStub : LinksStub :=
  { okStub with postLinksByLinkUuidTolls := fun _ _ =>
      Except.error (ThrownValue.errorObj "Internal Server Error" (some 500)) }

/-- Like `okStub`, but every action creation fails. -/
def actionFailStub : LinksStub :=
  { okStub with postLinksByLinkUuidActions := fun _ _ =>
      Except.error (ThrownValue.errorObj "Bad Request" (some 400)) }

/-- A concrete toll request, as in the usage examples of the SDK. -/
def sampleToll : PostLinksByLinkUuidTollsRequest :=
  { tollPaymentRequirements :=
      [{ assetNetwork := "base"
         assetAddress := "0x833589fCD6eDb6E08f4c7C32D4f71b54bdA02913"
         amount := "5000000"
         destinationAddress := "0x1234567890123456789012345678901234567890" }] }

/-- A concrete resource request. -/
def sampleResource : PostLinksByLinkUuidResourcesRequest :=
  { type := "redirect", data := { url := some "https://yourapp.com/welcome" } }

/-- Two concrete action requests. -/
def actionA : PostLinksByLinkUuidActionsRequest :=
  { type := "callback", trigger := "payment_success"
    data := { url := "https://yourapi.com/webhooks/a", method := "POST" } }

/-- Second concrete action request. -/
def actionB : PostLinksByLinkUuidActionsRequest :=
  { type := "callback", trigger := "link_accessed"
    data := { url := "https://yourapi.com/webhooks/b", method := "POST" } }

/-- Witness for C1 at a concrete name-only input and the all-success stub. -/
theorem c1_witness :
    createLink okStub { name := "My Link" } =
      ([ApiCall.postLinks (strippedOptions { name := "My Link" }),
        ApiCall.getLinksByUuidOrAlias "uuid-1"],
        Except.ok { uuid := some "uuid-1", name := some "My Link"
                    url := some "https://gatepay.cloud/l/uuid-1" }) ∧
      ({ uuid := some "uuid-1", name := some "My Link"
         url := some "https://gatepay.cloud/l/uuid-1" } :
        PostLinks201Response).uuid = some "uuid-1" :=
  c1_plain_link_two_calls okStub { name := "My Link" }
    { uuid := some "uuid-1", name := some "My Link" }
    { uuid := some "uuid-1", name := some "My Link"
      url := some "https://gatepay.cloud/l/uuid-1" }
    "uuid-1" rfl rfl rfl rfl rfl (by decide) rfl rfl

/-- Witness for C2 at a concrete input and the uuid-less stub. -/
theorem c2_witness :
    createLink noUuidStub { name := "My Link" } =
      ([ApiCall.postLinks (strippedOptions { name := "My Link" })],
        Except.error (ThrownValue.errorObj
          "Failed to create link: Failed to create link: no UUID returned"
          none)) :=
  c2_missing_uuid_stops noUuidStub { name := "My Link" } {} rfl rfl

/-- Witness for C3 at a concrete tolled input and the toll-failing stub. -/
theorem c3_witness :
    createLink tollFailStub { name := "My Link", toll := some sampleToll } =
      ([ApiCall.postLinks
          (strippedOptions { name := "My Link", toll := some sampleToll }),
        ApiCall.postLinksByLinkUuidTolls "uuid-1" sampleToll],
        Except.error (wrapThrown
          (ThrownValue.errorObj "Internal Server Error" (some 500)))) :=
  c3_toll_failure_no_rollback tollFailStub
    { name := "My Link", toll := some sampleToll }
    { uuid := some "uuid-1", name := some "My Link" }
    "uuid-1" sampleToll
    (ThrownValue.errorObj "Internal Server Error" (some 500))
    rfl rfl (by decide) rfl

/-- The function `actionEvents` distributes over trace concatenation. -/
theorem actionEvents_append (l1 l2 : List ApiCall) :
    actionEvents (l1 ++ l2) = actionEvents l1 ++ actionEvents l2 := by
  induction l1 with
  | nil => simp [actionEvents]
  | cons c rest ih => cases c <;> simp [actionEvents, ih]

/-- The action events of a pure action-call trace. -/
theorem actionEvents_map_actions (u : String)
    (l : List PostLinksByLinkUuidActionsRequest) :
    actionEvents (l.map (ApiCall.postLinksByLinkUuidActions u)) =
      l.map (fun a => (u, a)) := by
  induction l with
  | nil => rfl
  | cons a rest ih => simp [actionEvents, ih]

/-- Behaviour of the step-4 loop: the calls it issues are exactly the
first k actions of the list, in list order, all scoped to the uuid of the loop;
every issued action except possibly the last received a success response;
the loop succeeds only after issuing the whole list; and when it fails,
the failing call is the last issued one. -/
theorem actionsLoop_spec (stub : LinksStub) (u : String)
    (acts : List PostLinksByLinkUuidActionsRequest) :
    ∃ k, k ≤ acts.length ∧
      (actionsLoop stub u acts).fst =
        (acts.take k).map (ApiCall.postLinksByLinkUuidActions u) ∧
      (∀ i, i + 1 < k →
        ∃ x, stub.postLinksByLinkUuidActions u (acts.getD i dummyAction) =
          Except.ok x) ∧
      ((actionsLoop stub u acts).snd = Except.ok () → k = acts.length) ∧
      (∀ e, (actionsLoop stub u acts).snd = Except.error e →
        0 < k ∧
        stub.postLinksByLinkUuidActions u (acts.getD (k - 1) dummyAction) =
          Except.error e) := by
  induction acts with
  | nil =>
    refine ⟨0, by simp, by simp [actionsLoop, CallM.pure], ?_, ?_, ?_⟩
    · intro i hi; omega
    · intro _; rfl
    · intro e he; simp [actionsLoop, CallM.pure] at he
  | cons a rest ih =>
    rcases h : stub.postLinksByLinkUuidActions u a with e0 | x0
    · have hrun : actionsLoop stub u (a :: rest) =
          ([ApiCall.postLinksByLinkUuidActions u a], Except.error e0) := by
        simp [actionsLoop, CallM.call, CallM.bind_error, h]
      refine ⟨1, by simp, by simp [hrun], ?_, ?_, ?_⟩
      · intro i hi; omega
      · intro hok; rw [hrun] at hok; simp at hok
      · intro e he
        rw [hrun] at he
        simp at he
        subst he
        exact ⟨Nat.one_pos, by simpa using h⟩
    · have hrun : actionsLoop stub u (a :: rest) =
          (ApiCall.postLinksByLinkUuidActions u a ::
            (actionsLoop stub u rest).fst, (actionsLoop stub u rest).snd) := by
        simp [actionsLoop, CallM.call, CallM.bind_ok, h]
      obtain ⟨k', hk'le, hfst, hsucc, hok, herr⟩ := ih
      refine ⟨k' + 1, by simpa using hk'le, ?_, ?_, ?_, ?_⟩
      · rw [hrun]
        simp [List.take_succ_cons, hfst]
      · intro i hi
        cases i with
        | zero => exact ⟨x0, by simpa using h⟩
        | succ j =>
          have hj : j + 1 < k' := by omega
          simpa using hsucc j hj
      · intro hsnd
        rw [hrun] at hsnd
        simp at hsnd
        have := hok hsnd
        simp [this]
      · intro e he
        rw [hrun] at he
        simp at he
        obtain ⟨hk0, hlast⟩ := herr e he
        refine ⟨by omega, ?_⟩
        have hk1 : k' + 1 - 1 = (k' - 1) + 1 := by omega
        rw [hk1]
        simpa using hlast

/-- The action calls inside a trace form an in-order initial segment of
the given action list, all scoped to one uuid, and every issued action
except possibly the last received a success response — so no action is
ever issued after an earlier one in the list failed. -/
def sequentialActions (stub : LinksStub)
    (acts : List PostLinksByLinkUuidActionsRequest)
    (tr : List ApiCall) : Prop :=
  ∃ u k, k ≤ acts.length ∧
    actionEvents tr = (acts.take k).map (fun a => (u, a)) ∧
    ∀ i, i + 1 < k →
      ∃ x, stub.postLinksByLinkUuidActions u (acts.getD i dummyAction) =
        Except.ok x

/-- A trace without action calls is trivially sequential. -/
theorem sequentialActions_of_nil (stub : LinksStub)
    (acts : List PostLinksByLinkUuidActionsRequest) (tr : List ApiCall)
    (h : actionEvents tr = []) : sequentialActions stub acts tr := by
  refine ⟨"", 0, by simp, by simp [h], ?_⟩
  intro i hi; omega

/-- Sequencing an action-free step in front preserves sequentiality of
the remaining trace; a failure of the step leaves an action-free trace. -/
theorem sequentialActions_bind {α β : Type} (stub : LinksStub)
    (acts : List PostLinksByLinkUuidActionsRequest)
    (x : CallM α) (f : α → CallM β)
    (hx : actionEvents x.fst = [])
    (hf : ∀ a, x.snd = Except.ok a → sequentialActions stub acts (f a).fst) :
    sequentialActions stub acts (CallM.bind x f).fst := by
  rcases x with ⟨tr, res⟩
  cases res with
  | error e => exact sequentialActions_of_nil stub acts _ (by simpa [CallM.bind] using hx)
  | ok a =>
    obtain ⟨u, k, hk, hev, hsucc⟩ := hf a rfl
    exact ⟨u, k, hk, by simp [CallM.bind, actionEvents_append,
      (by simpa using hx : actionEvents tr = []), hev], hsucc⟩

/-- The step-4 guard and loop followed by an action-free continuation
leave a sequential trace for the supplied action list. -/
theorem sequentialActions_actionsStep {β : Type} (stub : LinksStub)
    (u : String) (actions : Option (List PostLinksByLinkUuidActionsRequest))
    (f : Unit → CallM β)
    (hf : ∀ a, actionEvents (f a).fst = []) :
    sequentialActions stub (actions.getD [])
      (CallM.bind (actionsStep stub u actions) f).fst := by
  cases actions with
  | none =>
    apply sequentialActions_of_nil
    simp [actionsStep, CallM.bind, CallM.pure, actionEvents, hf ()]
  | some acts =>
    rcases acts with _ | ⟨a, rest⟩
    · apply sequentialActions_of_nil
      simp [actionsStep, CallM.bind, CallM.pure, actionEvents, hf ()]
    · obtain ⟨k, hk, hfst, hsucc, hok, herr⟩ := actionsLoop_spec stub u (a :: rest)
      have hstep : actionsStep stub u (some (a :: rest)) =
          actionsLoop stub u (a :: rest) := by
        simp [actionsStep]
      rcases hsnd : (actionsLoop stub u (a :: rest)).snd with e | y
      · refine ⟨u, k, by simpa using hk, ?_, hsucc⟩
        have hbind : (CallM.bind (actionsLoop stub u (a :: rest)) f).fst =
            (actionsLoop stub u (a :: rest)).fst := by
          rcases hx : actionsLoop stub u (a :: rest) with ⟨tr0, r0⟩
          rw [hx] at hsnd
          simp at hsnd
          subst hsnd
          simp [CallM.bind]
        rw [hstep, hbind, hfst]
        simp [← List.map_take, actionEvents_map_actions]
      · refine ⟨u, k, by simpa using hk, ?_, hsucc⟩
        have hbind : (CallM.bind (actionsLoop stub u (a :: rest)) f).fst =
            (actionsLoop stub u (a :: rest)).fst ++ (f y).fst := by
          rcases hx : actionsLoop stub u (a :: rest) with ⟨tr0, r0⟩
          rw [hx] at hsnd
          simp at hsnd
          subst hsnd
          simp [CallM.bind]
        rw [hstep, hbind, actionEvents_append, hfst]
        simp [← List.map_take, actionEvents_map_actions, hf y]

/-- C4: for every remote behaviour and every input, the action-creation
calls `createLink` issues are an in-order initial segment of the supplied
actions list, all scoped to one uuid, and every issued action except
possibly the last received a success response — hence the calls are
strictly sequential in list order and no action is ever attempted after an
earlier one failed; in particular, for `actions = [A, B]` where A fails, B
is never attempted. -/
theorem c4_actions_sequential (stub : LinksStub) (options : CreateLinkOptions) :
    sequentialActions stub (options.actions.getD [])
      (createLink stub options).fst := by
  have hfst : (createLink stub options).fst = (createLinkTry stub options).fst := rfl
  rw [hfst]
  simp only [createLinkTry]
  apply sequentialActions_bind
  · simp [CallM.call, actionEvents]
  · intro cl _
    cases hu : truthyUuid cl.uuid with
    | none =>
      exact sequentialActions_of_nil stub _ _ (by simp [CallM.throw, actionEvents])
    | some u =>
      apply sequentialActions_bind
      · cases options.toll <;>
          simp [tollStep, CallM.pure, CallM.call, actionEvents]
      · intro _ _
        apply sequentialActions_bind
        · cases options.resource <;>
            simp [resourceStep, CallM.pure, CallM.call, actionEvents]
        · intro _ _
          apply sequentialActions_actionsStep
          intro _
          simp [CallM.call, actionEvents]

/-- Every façade state reachable by mutations from a well-formed state
keeps its three sub-clients bound to its current Configuration. -/
theorem applyOps_subclients (ops : List FacadeOp) (g : Gatepay)
    (h : g.account.configuration = g.configuration ∧
      g.links.configuration = g.configuration ∧
      g.networks.configuration = g.configuration) :
    (applyOps g ops).account.configuration = (applyOps g ops).configuration ∧
      (applyOps g ops).links.configuration = (applyOps g ops).configuration ∧
      (applyOps g ops).networks.configuration = (applyOps g ops).configuration := by
  induction ops generalizing g with
  | nil => simpa [applyOps] using h
  | cons op rest ih =>
    have hstep : applyOps g (op :: rest) = applyOps (applyOp g op) rest := rfl
    rw [hstep]
    apply ih
    cases op <;>
      simp [applyOp, Gatepay.updateApiToken, Gatepay.updateBasePath]

/-- C5: on any reachable façade state, `updateApiToken t` produces a
Configuration with accessToken `t` and the basePath carried over from the
pre-update Configuration; all three sub-client fields of the updated
façade are bound to that new Configuration, so subsequent operations
through them use `t`; and the pre-update façade value — the reference a
caller captured before the update — still carries the pre-update token in
its `links` sub-client. -/
theorem c5_update_api_token_rebinds (o : GatepayClientOptions)
    (ops : List FacadeOp) (t : String) :
    ((applyOps (Gatepay.new o) ops).updateApiToken t).configuration.accessToken
        = t ∧
      ((applyOps (Gatepay.new o) ops).updateApiToken t).configuration.basePath
        = (applyOps (Gatepay.new o) ops).configuration.basePath ∧
      ((applyOps (Gatepay.new o) ops).updateApiToken t).account.configuration
        = ((applyOps (Gatepay.new o) ops).updateApiToken t).configuration ∧
      ((applyOps (Gatepay.new o) ops).updateApiToken t).links.configuration
        = ((applyOps (Gatepay.new o) ops).updateApiToken t).configuration ∧
      ((applyOps (Gatepay.new o) ops).updateApiToken t).networks.configuration
        = ((applyOps (Gatepay.new o) ops).updateApiToken t).configuration ∧
      (applyOps (Gatepay.new o) ops).links.configuration.accessToken
        = (applyOps (Gatepay.new o) ops).configuration.accessToken := by
  refine ⟨rfl, rfl, rfl, rfl, rfl, ?_⟩
  have h := applyOps_subclients ops (Gatepay.new o) ⟨rfl, rfl, rfl⟩
  rw [h.2.1]

/-- C7: when no basePath is supplied at construction, `getConfiguration`
returns the Configuration of the façade and its basePath is the documented
production address. -/
theorem c7_default_base_path (o : GatepayClientOptions)
    (h : o.basePath = none) :
    (Gatepay.new o).getConfiguration = (Gatepay.new o).configuration ∧
      (Gatepay.new o).getConfiguration.basePath = "https://api.gatepay.cloud" := by
  refine ⟨rfl, ?_⟩
  simp [Gatepay.getConfiguration, Gatepay.new, jsOrDefault, h]

/-- Witness for C7 at a concrete construction without basePath. -/
theorem c7_witness :
    (Gatepay.new { apiToken := "tok", basePath := none }).getConfiguration
        = (Gatepay.new { apiToken := "tok", basePath := none }).configuration ∧
      (Gatepay.new { apiToken := "tok", basePath := none
        }).getConfiguration.basePath = "https://api.gatepay.cloud" :=
  c7_default_base_path { apiToken := "tok", basePath := none } rfl

/-- C8 fails as stated: the empty string is a legal argument everywhere
(the code validates nothing), and constructing the façade with an empty
apiToken yields a post-construction Configuration whose accessToken is
empty. -/
theorem c8_counterexample :
    ¬ ((Gatepay.new { apiToken := "", basePath := none
          }).configuration.basePath ≠ "" ∧
        (Gatepay.new { apiToken := "", basePath := none
          }).configuration.accessToken ≠ "") := by
  decide

/-- An absent or empty basePath option falls back to the default, so the
result is non-empty whenever the default is. -/
theorem jsOrDefault_ne_empty (v : Option String) (dflt : String)
    (h : dflt ≠ "") : jsOrDefault v dflt ≠ "" := by
  cases v with
  | none => simpa [jsOrDefault] using h
  | some s =>
    by_cases hs : s = "" <;> simp [jsOrDefault, hs, h]

/-- Non-emptiness of both Configuration fields is preserved by any
mutation whose string argument is non-empty. -/
theorem applyOps_preserves_nonempty (ops : List FacadeOp) (g : Gatepay)
    (hg : g.configuration.basePath ≠ "" ∧ g.configuration.accessToken ≠ "")
    (hops : ∀ op ∈ ops, FacadeOp.arg op ≠ "") :
    (applyOps g ops).configuration.basePath ≠ "" ∧
      (applyOps g ops).configuration.accessToken ≠ "" := by
  induction ops generalizing g with
  | nil => simpa [applyOps] using hg
  | cons op rest ih =>
    have hhead : FacadeOp.arg op ≠ "" := hops op (List.mem_cons_self op rest)
    have hrest : ∀ p ∈ rest, FacadeOp.arg p ≠ "" :=
      fun p hp => hops p (List.mem_cons_of_mem _ hp)
    have hstage : applyOps g (op :: rest) = applyOps (applyOp g op) rest := rfl
    rw [hstage]
    apply ih _ _ hrest
    cases op with
    | updToken t =>
      exact ⟨hg.1, by simpa [FacadeOp.arg] using hhead⟩
    | updBase b =>
      exact ⟨by simpa [FacadeOp.arg] using hhead, hg.2⟩

/-- C8 amended: the basePath established at construction is always
non-empty (an absent or empty option falls back to the production
default), but the credential fields are stored verbatim; hence both
Configuration fields are non-empty in every reachable façade state
provided the apiToken of the constructor and every argument later passed to
`updateApiToken`/`updateBasePath` are non-empty strings. -/
theorem c8_nonempty_configuration (o : GatepayClientOptions)
    (ops : List FacadeOp)
    (htok : o.apiToken ≠ "")
    (hops : ∀ op ∈ ops, FacadeOp.arg op ≠ "") :
    (applyOps (Gatepay.new o) ops).configuration.basePath ≠ "" ∧
      (applyOps (Gatepay.new o) ops).configuration.accessToken ≠ "" := by
  apply applyOps_preserves_nonempty ops (Gatepay.new o) _ hops
  exact ⟨jsOrDefault_ne_empty o.basePath _ (by decide), htok⟩

/-- Witness for the amended C8 on a concrete construction followed by a
token update and a base-path update. -/
theorem c8_witness :
    (applyOps (Gatepay.new { apiToken := "tok", basePath := none })
        [FacadeOp.updToken "t2",
          FacadeOp.updBase "https://api.example.com"]).configuration.basePath
        ≠ "" ∧
      (applyOps (Gatepay.new { apiToken := "tok", basePath := none })
        [FacadeOp.updToken "t2",
          FacadeOp.updBase "https://api.example.com"]).configuration.accessToken
        ≠ "" :=
  c8_nonempty_configuration { apiToken := "tok", basePath := none }
    [FacadeOp.updToken "t2", FacadeOp.updBase "https://api.example.com"]
    (by decide) (by decide)

/-- The calls of a sequenced computation: the calls of the first stage,
followed by the calls of the continuation when the first stage succeeded. -/
theorem CallM.fst_bind {α β : Type} (x : CallM α) (f : α → CallM β) :
    (CallM.bind x f).fst = x.fst ++ (match x.snd with
      | Except.ok a => (f a).fst
      | Except.error _ => ([] : List ApiCall)) := by
  rcases x with ⟨tr, res⟩
  cases res <;> simp [CallM.bind]

/-- Every failure of `createLink` is the wrapping, by the catch block, of the
value thrown inside the try body. -/
theorem createLink_error_shape (stub : LinksStub) (options : CreateLinkOptions)
    (tr : List ApiCall) (e : ThrownValue)
    (h : createLink stub options = (tr, Except.error e)) :
    ∃ e0, (createLinkTry stub options).snd = Except.error e0 ∧
      e = wrapThrown e0 := by
  have hsnd := congrArg Prod.snd h
  simp only [createLink] at hsnd
  rcases h2 : (createLinkTry stub options).snd with e0 | l
  · rw [h2] at hsnd
    simp at hsnd
    exact ⟨e0, rfl, hsnd.symm⟩
  · rw [h2] at hsnd
    simp at hsnd

/-- When the creation response has a falsy uuid, `createLink` stops after
the single creation call and surfaces the doubly wrapped message. -/
theorem createLink_missing_uuid (stub : LinksStub)
    (options : CreateLinkOptions) (cl : PostLinks201Response)
    (h1 : stub.postLinks (strippedOptions options) = Except.ok cl)
    (hu : truthyUuid cl.uuid = none) :
    createLink stub options =
      ([ApiCall.postLinks (strippedOptions options)],
        Except.error (ThrownValue.errorObj
          "Failed to create link: Failed to create link: no UUID returned"
          none)) := by
  simp [createLink, createLinkTry, CallM.call, CallM.throw, CallM.bind_ok,
    CallM.bind_error, h1, hu, wrapThrown, ThrownValue.caughtMessage]

/-- Concrete options with a toll, used by the C6 counterexample. -/
def tolledOptions : CreateLinkOptions :=
  { name := "Premium Content", toll := some sampleToll }

/-- C6 fails as stated: at this concrete input the toll step throws an
`Error` with HTTP status 500, yet the error `createLink` surfaces is a
fresh status-less `Error` distinct from the original — only the original
message text survives inside the message of the wrapper; the original error
object and its HTTP status are not reachable from the surfaced error. -/
theorem c6_counterexample :
    (createLink tollFailStub tolledOptions).snd =
      Except.error (ThrownValue.errorObj
        "Failed to create link: Internal Server Error" none) ∧
      ThrownValue.statusOf (ThrownValue.errorObj
        "Failed to create link: Internal Server Error" none) = none ∧
      ThrownValue.errorObj "Failed to create link: Internal Server Error" none
        ≠ ThrownValue.errorObj "Internal Server Error" (some 500) := by
  refine ⟨rfl, rfl, by decide⟩

/-- C6 amended: every failure of `createLink` is surfaced as exactly the
status-less wrapping of the value `e0` thrown inside the try body: a fresh
`Error` whose message is the uniform descriptive prefix followed by the
message text of that original value (its `message` when it is an `Error`,
"Unknown error" otherwise) — so the original message text is preserved
inside the message of the wrapper, while the surfaced error carries no
HTTP status and no reference to the original error object. -/
theorem c6_wrap_preserves_message_only (stub : LinksStub)
    (options : CreateLinkOptions) (tr : List ApiCall) (e : ThrownValue)
    (h : createLink stub options = (tr, Except.error e)) :
    ∃ e0, (createLinkTry stub options).snd = Except.error e0 ∧
      e = ThrownValue.errorObj
        ("Failed to create link: " ++ ThrownValue.caughtMessage e0) none ∧
      (∀ m s, e0 = ThrownValue.errorObj m s →
        e = ThrownValue.errorObj ("Failed to create link: " ++ m) none) ∧
      ThrownValue.statusOf e = none := by
  obtain ⟨e0, h0, he⟩ := createLink_error_shape stub options tr e h
  refine ⟨e0, h0, by simp [he, wrapThrown], ?_, ?_⟩
  · intro m s hm
    simp [he, hm, wrapThrown, ThrownValue.caughtMessage]
  · simp [he, wrapThrown, ThrownValue.statusOf]

/-- Witness for the amended C6 at the concrete toll-failing run, whose
try body throws the 500-status "Internal Server Error". -/
theorem c6_amended_witness :
    ∃ e0, (createLinkTry tollFailStub tolledOptions).snd = Except.error e0 ∧
      ThrownValue.errorObj "Failed to create link: Internal Server Error" none
        = ThrownValue.errorObj
          ("Failed to create link: " ++ ThrownValue.caughtMessage e0) none ∧
      (∀ m s, e0 = ThrownValue.errorObj m s →
        ThrownValue.errorObj "Failed to create link: Internal Server Error"
          none = ThrownValue.errorObj ("Failed to create link: " ++ m) none) ∧
      ThrownValue.statusOf (ThrownValue.errorObj
        "Failed to create link: Internal Server Error" none) = none :=
  c6_wrap_preserves_message_only tollFailStub tolledOptions
    [ApiCall.postLinks (strippedOptions tolledOptions),
      ApiCall.postLinksByLinkUuidTolls "uuid-1" sampleToll]
    (ThrownValue.errorObj "Failed to create link: Internal Server Error" none)
    rfl

/-- C10: every error `createLink` surfaces is a plain status-less `Error`
whose message begins with the uniform "Failed to create link: " prefix —
including failures of the step-1 creation call itself — and in the
missing-uuid case the internally thrown error is caught and wrapped again,
so the caller observes the doubled message. -/
theorem c10_uniform_error_prefix (stub : LinksStub)
    (options : CreateLinkOptions) (tr : List ApiCall) (e : ThrownValue)
    (h : createLink stub options = (tr, Except.error e)) :
    (∃ m, e = ThrownValue.errorObj ("Failed to create link: " ++ m) none) ∧
      (∀ cl, stub.postLinks (strippedOptions options) = Except.ok cl →
        truthyUuid cl.uuid = none →
        e = ThrownValue.errorObj
          "Failed to create link: Failed to create link: no UUID returned"
          none) := by
  constructor
  · obtain ⟨e0, _, he⟩ := createLink_error_shape stub options tr e h
    exact ⟨e0.caughtMessage, by simp [he, wrapThrown]⟩
  · intro cl h1 hu
    have h2 := createLink_missing_uuid stub options cl h1 hu
    rw [h] at h2
    have h3 := congrArg Prod.snd h2
    simpa using h3

/-- Witness for C10 at the concrete uuid-less run. -/
theorem c10_witness :
    (∃ m, ThrownValue.errorObj
        "Failed to create link: Failed to create link: no UUID returned" none
        = ThrownValue.errorObj ("Failed to create link: " ++ m) none) ∧
      (∀ cl, noUuidStub.postLinks
          (strippedOptions { name := "My Link" }) = Except.ok cl →
        truthyUuid cl.uuid = none →
        ThrownValue.errorObj
          "Failed to create link: Failed to create link: no UUID returned" none
          = ThrownValue.errorObj
            "Failed to create link: Failed to create link: no UUID returned"
            none) :=
  c10_uniform_error_prefix noUuidStub { name := "My Link" }
    [ApiCall.postLinks (strippedOptions { name := "My Link" })]
    (ThrownValue.errorObj
      "Failed to create link: Failed to create link: no UUID returned" none)
    rfl

/-- C9: the options value of the caller is left intact by `createLink`: the step-1
request is a fresh shallow copy whose toll, resource and actions are
cleared while the plain link fields are carried over, and the later steps
still observe the original toll, resource and actions of the caller — which
they could not if the strip had cleared the shared object in place. -/
theorem c9_options_not_mutated (stub : LinksStub)
    (options : CreateLinkOptions) (cl : PostLinks201Response) (u : String)
    (t : PostLinksByLinkUuidTollsRequest)
    (r : PostLinksByLinkUuidResourcesRequest)
    (a0 : PostLinksByLinkUuidActionsRequest)
    (rest : List PostLinksByLinkUuidActionsRequest)
    (h1 : stub.postLinks (strippedOptions options) = Except.ok cl)
    (hu : truthyUuid cl.uuid = some u)
    (htoll : options.toll = some t)
    (hres : options.resource = some r)
    (hact : options.actions = some (a0 :: rest))
    (htok : stub.postLinksByLinkUuidTolls u t = Except.ok ())
    (hrok : stub.postLinksByLinkUuidResources u r = Except.ok ()) :
    ((strippedOptions options).toll = none ∧
      (strippedOptions options).resource = none ∧
      (strippedOptions options).actions = none) ∧
      ((strippedOptions options).name = options.name ∧
        (strippedOptions options).«alias» = options.«alias» ∧
        (strippedOptions options).description = options.description ∧
        (strippedOptions options).status = options.status ∧
        (strippedOptions options).type = options.type) ∧
      (ApiCall.postLinksByLinkUuidTolls u t ∈ (createLink stub options).fst ∧
        ApiCall.postLinksByLinkUuidResources u r ∈
          (createLink stub options).fst ∧
        ApiCall.postLinksByLinkUuidActions u a0 ∈
          (createLink stub options).fst) := by
  refine ⟨⟨rfl, rfl, rfl⟩, ⟨rfl, rfl, rfl, rfl, rfl⟩, ?_, ?_, ?_⟩ <;>
    simp [createLink, createLinkTry, CallM.fst_bind, CallM.call, CallM.pure,
      tollStep, resourceStep, actionsStep, actionsLoop,
      h1, hu, htoll, hres, hact, htok, hrok]

/-- Concrete fully-populated options for the C9 witness. -/
def fullOptions : CreateLinkOptions :=
  { name := "Premium Content", «alias» := some "premium-content"
    status := some "active", type := some "permanent"
    toll := some sampleToll, resource := some sampleResource
    actions := some [actionA] }

/-- Witness for C9 at the concrete fully-populated input and the
all-success stub. -/
theorem c9_witness :
    ((strippedOptions fullOptions).toll = none ∧
      (strippedOptions fullOptions).resource = none ∧
      (strippedOptions fullOptions).actions = none) ∧
      ((strippedOptions fullOptions).name = fullOptions.name ∧
        (strippedOptions fullOptions).«alias» = fullOptions.«alias» ∧
        (strippedOptions fullOptions).description = fullOptions.description ∧
        (strippedOptions fullOptions).status = fullOptions.status ∧
        (strippedOptions fullOptions).type = fullOptions.type) ∧
      (ApiCall.postLinksByLinkUuidTolls "uuid-1" sampleToll ∈
          (createLink okStub fullOptions).fst ∧
        ApiCall.postLinksByLinkUuidResources "uuid-1" sampleResource ∈
          (createLink okStub fullOptions).fst ∧
        ApiCall.postLinksByLinkUuidActions "uuid-1" actionA ∈
          (createLink okStub fullOptions).fst) :=
  c9_options_not_mutated okStub fullOptions
    { uuid := some "uuid-1", name := some "My Link" } "uuid-1"
    sampleToll sampleResource actionA []
    rfl (by decide) rfl rfl rfl rfl rfl

end GatepaySDK
